import Mathlib

/-
Shallow embedding of the simulation core of the Snake game in `src/main.py`
(class `SnakeGame`, module-level helpers `load_prefs` / `save_prefs`).

Modelling conventions:
* Grid cells are pairs of integers (Python ints); Python's `%` on ints with a
  positive modulus is `Int.emod`, which is Lean's `%` on `Int`.
* Python floats (`buffer_move`, `speed`, `ttl`, timers) are embedded as
  rationals; the claims under study concern the discrete grid dynamics and do
  not depend on rounding of binary floating point.
* Randomness (`random.choice`, `random.random`) is embedded by passing the
  random outcomes in explicitly: an index for each `random.choice` call
  (interpreted modulo the length of the list being chosen from) and a rational
  in place of each `random.random()` result.
* Purely visual state that no other code reads back (the particle list, the
  wall-clock fields `time_start` / `time_alive`, the screenshot key, the
  derived `theme` colour table, the unused `portal_pairs` list not touched
  after `reset`) is omitted; all state consulted by the simulation itself
  (snake, headings, foods and their lifetimes, score and stats, speed, combo,
  timers, preferences) is carried.
* Writes of the preferences file by `save_prefs` are recorded in a `saveLog`
  field: each call conses the saved record onto the log.
-/

namespace UltimateSnake

/-- A grid cell, as a pair of Python integers. -/
abbrev Cell := Int × Int

/-- `GRID_W` from the source. -/
def GRID_W : Nat := 28

/-- `GRID_H` from the source. -/
def GRID_H : Nat := 20

/-- `FOOD_NORMAL` from the source. -/
def FOOD_NORMAL : Nat := 0
/-- `FOOD_GOLDEN` from the source. -/
def FOOD_GOLDEN : Nat := 1
/-- `FOOD_SLOWMO` from the source. -/
def FOOD_SLOWMO : Nat := 2
/-- `FOOD_SHRINK` from the source. -/
def FOOD_SHRINK : Nat := 3
/-- `FOOD_PORTAL` from the source. -/
def FOOD_PORTAL : Nat := 4

/-- The `state` field of `SnakeGame`: one of `'menu'`, `'play'`, `'paused'`,
`'gameover'`. -/
inductive GState where
  | menu
  | play
  | paused
  | gameover
deriving DecidableEq, Repr

/-- Dataclass `Prefs` (the well-typed record the running game manipulates). -/
structure Prefs where
  theme_index : Int := 0
  show_grid : Bool := true
  wrap_walls : Bool := true
  base_speed : ℚ := 8
  best_score : Int := 0
deriving DecidableEq, Repr

/-- Dataclass `Stats` (wall-clock fields `time_start` / `time_alive`
omitted). -/
structure Stats where
  score : Int := 0
  length : Int := 3
  apples : Int := 0
  golden : Int := 0
  slowmo : Int := 0
  shrink : Int := 0
  portal : Int := 0
  max_combo : Int := 0
deriving DecidableEq, Repr

/-- Dataclass `Food`. -/
structure Food where
  pos : Cell
  kind : Nat
  ttl : ℚ
deriving DecidableEq, Repr

/-- Random outcomes consumed by one call of `spawn_food`: the indices of the
`random.choice` calls and the value of `random.random()`. -/
structure SpawnRand where
  i0 : Nat := 0
  r : ℚ := 1
  i1 : Nat := 0
  i2 : Nat := 0
deriving DecidableEq, Repr

/-- Random outcomes consumed by one iteration of the movement loop in
`update`: the `random.choice` inside the portal branch of `apply_food` and the
outcomes for the `spawn_food` call. -/
structure StepRand where
  portalChoice : Nat := 0
  spawn : SpawnRand := {}
deriving DecidableEq, Repr

/-- The simulation state of `SnakeGame` (rendering-only fields omitted, see
the header comment).  The snake list is tail-first: `snake[-1]`, the last
element, is the head, exactly as in the source. -/
structure Game where
  state : GState
  stats : Stats
  snake : List Cell
  dir : Cell
  next_dir : Cell
  buffer_move : ℚ
  speed : ℚ
  combo : Int
  foods : List Food
  flash_t : ℚ
  camera_shake_t : ℚ
  photo_mode : Bool
  prefs : Prefs
  saveLog : List Prefs
deriving DecidableEq, Repr

/-- The free-cell list computed at the top of `spawn_food`:
`[(x,y) for x in range(GRID_W) for y in range(GRID_H) if (x,y) not in occupied
and (x,y) not in [f.pos for f in self.foods]]`, in the same enumeration
order. -/
def freeCells (g : Game) : List Cell :=
  (List.range GRID_W).flatMap (fun x =>
    (List.range GRID_H).filterMap (fun y =>
      let c : Cell := ((x : Int), (y : Int))
      if g.snake.contains c || (g.foods.map Food.pos).contains c then none
      else some c))

/-- The local helper `place(kind, ttl)` inside `spawn_food`: appends a food at
`random.choice(free)` (the choice given by index `i` into `free`). -/
def place (free : List Cell) (i : Nat) (kind : Nat) (ttl : ℚ) (g : Game) :
    Game :=
  { g with foods := g.foods ++ [⟨free.getD (i % free.length) (0, 0), kind, ttl⟩] }

/-- `SnakeGame.spawn_food`.  The list `free` is computed once at entry and
reused by every placement in the same call, as in the source. -/
def spawn_food (initial : Bool) (r : SpawnRand) (g : Game) : Game :=
  let free := freeCells g
  if free = [] then g
  else
    let g1 := place free r.i0 FOOD_NORMAL 30 g
    if initial then g1
    else if r.r < mkRat 15 100 then place free r.i1 FOOD_GOLDEN 12 g1
    else if r.r < mkRat 30 100 then place free r.i1 FOOD_SLOWMO 10 g1
    else if r.r < mkRat 42 100 then place free r.i1 FOOD_SHRINK 10 g1
    else if r.r < mkRat 52 100 then
      if 2 ≤ free.length then
        let p1 := free.getD (r.i1 % free.length) (0, 0)
        let free2 := free.filter (fun c => c ≠ p1)
        let p2 := free2.getD (r.i2 % free2.length) (0, 0)
        { g1 with foods := g1.foods ++ [⟨p1, FOOD_PORTAL, 14⟩, ⟨p2, FOOD_PORTAL, 14⟩] }
      else g1
    else g1

/-- `SnakeGame.reset` (with the randomness of the initial `spawn_food` passed
in). `cx, cy = GRID_W//2, GRID_H//2 = (14, 10)`. -/
def reset (r : SpawnRand) (g : Game) : Game :=
  spawn_food true r
    { g with
      state := GState.menu
      stats := {}
      snake := [(13, 10), (14, 10), (15, 10)]
      dir := (1, 0)
      next_dir := (1, 0)
      buffer_move := 0
      speed := g.prefs.base_speed
      combo := 0
      foods := []
      flash_t := 0
      camera_shake_t := 0
      photo_mode := false }

/-- `SnakeGame.game_over`: enters the `'gameover'` state, raises the stored
best score to the current score if the latter is larger, and persists the
preferences (`save_prefs`), recorded by consing onto `saveLog`. -/
def game_over (g : Game) : Game :=
  let p := { g.prefs with best_score := max g.prefs.best_score g.stats.score }
  { g with state := GState.gameover, prefs := p, saveLog := p :: g.saveLog }

/-- `SnakeGame.apply_food` (particle burst omitted; `pc` is the
`random.choice` index of the portal branch).  List indexing in the source
(`snake[0]`, `snake[-1]`) presumes a nonempty snake, which the game maintains;
the embedding uses the corresponding total list operations. -/
def apply_food (pc : Nat) (food : Food) (g : Game) : Game :=
  if food.kind = FOOD_NORMAL then
    { g with stats := { g.stats with
        apples := g.stats.apples + 1
        length := g.stats.length + 1
        score := g.stats.score + 10 + max 0 (g.combo - 1) * 4 } }
  else if food.kind = FOOD_GOLDEN then
    { g with
      stats := { g.stats with
        golden := g.stats.golden + 1
        length := g.stats.length + 3
        score := g.stats.score + 50 }
      snake := g.snake ++ [g.snake.headD (0, 0), g.snake.headD (0, 0)] }
  else if food.kind = FOOD_SLOWMO then
    { g with
      stats := { g.stats with
        slowmo := g.stats.slowmo + 1
        score := g.stats.score + 20 }
      speed := max 3 (g.speed - 2) }
  else if food.kind = FOOD_SHRINK then
    let cut : Int := min 3 ((g.snake.length : Int) - 3)
    if 0 < cut then
      { g with
        stats := { g.stats with
          shrink := g.stats.shrink + 1
          length := max 3 (g.stats.length - cut)
          score := g.stats.score + 15 }
        snake := g.snake.drop cut.toNat }
    else
      { g with stats := { g.stats with
          shrink := g.stats.shrink + 1
          score := g.stats.score + 15 } }
  else if food.kind = FOOD_PORTAL then
    let others := g.foods.filter (fun f => f.kind = FOOD_PORTAL)
    if others = [] then
      { g with stats := { g.stats with
          portal := g.stats.portal + 1
          score := g.stats.score + 25 } }
    else
      { g with
        stats := { g.stats with
          portal := g.stats.portal + 1
          score := g.stats.score + 25 }
        snake := g.snake.dropLast ++ [(others.getD (pc % others.length) ⟨(0, 0), 0, 0⟩).pos] }
  else g

/-- The head cell before wrapping: `head + dir` with the heading about to be
committed (`self.dir = self.next_dir` precedes this in the loop body). -/
def rawHead (g : Game) : Cell :=
  let h := g.snake.getLastD (0, 0)
  (h.1 + g.next_dir.1, h.2 + g.next_dir.2)

/-- Whether `rawHead` lies on the grid: `0 <= nx < GRID_W and 0 <= ny <
GRID_H`. -/
def inBounds (c : Cell) : Bool :=
  0 ≤ c.1 && c.1 < (GRID_W : Int) && 0 ≤ c.2 && c.2 < (GRID_H : Int)

/-- The committed new head cell: wrapped coordinates in wrap mode, the raw
cell otherwise. -/
def newHead (g : Game) : Cell :=
  if g.prefs.wrap_walls then
    ((rawHead g).1 % (GRID_W : Int), (rawHead g).2 % (GRID_H : Int))
  else rawHead g

/-- The out-of-bounds test of the movement loop (solid-wall mode only). -/
def hitsWall (g : Game) : Bool :=
  !g.prefs.wrap_walls && !inBounds (rawHead g)

/-- The self-collision test `new_head in self.snake[1:]` of the movement
loop. -/
def selfCollides (g : Game) : Bool :=
  (g.snake.drop 1).contains (newHead g)

/-- The food lookup of the movement loop: the first food whose position is the
new head (the one the `for f in list(self.foods)` loop stops at). -/
def ateFood (g : Game) : Option Food :=
  g.foods.find? (fun f => f.pos = newHead g)

/-- Removal of the eaten item, `self.foods.remove(f)`: drops the first food
at the new head. -/
def removeEaten (nh : Cell) : List Food → List Food
  | [] => []
  | f :: fs => if f.pos = nh then fs else f :: removeEaten nh fs

/-- The `if ate:` block of the movement loop, applied to the state with the
new head `nh` already appended: removes the eaten item, applies its effect,
respawns food, bumps the combo (and the running maximum) and starts the
camera shake. -/
def afterEat (r : StepRand) (f : Food) (nh : Cell) (g : Game) : Game :=
  let g3 := spawn_food false r.spawn
    (apply_food r.portalChoice f { g with foods := removeEaten nh g.foods })
  { g3 with
    combo := g3.combo + 1
    stats := { g3.stats with
      max_combo := max g3.stats.max_combo (g3.combo + 1) }
    camera_shake_t := mkRat 1 4 }

/-- One iteration of the `while self.buffer_move >= 1.0` movement loop in
`SnakeGame.update`: decrements the buffer, commits the pending heading,
computes the new head, handles wall and self collisions (calling `game_over`),
otherwise appends the head and either resolves an eaten food (`afterEat`) or
pops the tail and resets the combo. -/
def moveOnce (r : StepRand) (g : Game) : Game :=
  let g1 := { g with buffer_move := g.buffer_move - 1, dir := g.next_dir }
  if hitsWall g then game_over g1
  else if selfCollides g then game_over g1
  else
    let nh := newHead g
    let g2 := { g1 with snake := g1.snake ++ [nh] }
    match ateFood g with
    | some f => afterEat r f nh g2
    | none => { g2 with snake := g2.snake.drop 1, combo := 0 }

/-- The movement loop, with fuel: runs `moveOnce` while the buffer is at least
one cell, stopping the whole update early when an iteration ended the game
(the `return` inside `game_over(); return`). -/
def moveLoop : Nat → List StepRand → Game → Game
  | 0, _, g => g
  | n + 1, rs, g =>
      if 1 ≤ g.buffer_move then
        let g' := moveOnce (rs.headD {}) g
        if g'.state = GState.gameover then g'
        else moveLoop n (rs.drop 1) g'
      else g

/-- The timer-decay tail of `SnakeGame.update`: food lifetimes tick down and
expired items disappear; the flash and camera-shake timers decay toward zero
(particle bookkeeping and the wall-clock `time_alive` update are visual-only
and omitted). -/
def decay (dt : ℚ) (g : Game) : Game :=
  { g with
    foods := (g.foods.map (fun f => { f with ttl := f.ttl - dt })).filter
      (fun f => 0 < f.ttl)
    flash_t := max 0 (g.flash_t - dt)
    camera_shake_t := max 0 (g.camera_shake_t - dt) }

/-- `SnakeGame.update`: a no-op outside the `'play'` state; otherwise
accumulates `dt * speed` into the movement buffer, runs the movement loop
(one `StepRand` consumed per iteration), and — unless an iteration ended the
game and returned early — decays the timers. -/
def update (dt : ℚ) (rs : List StepRand) (g : Game) : Game :=
  if g.state ≠ GState.play then g
  else
    let g1 := { g with buffer_move := g.buffer_move + dt * g.speed }
    let g2 := moveLoop (Int.toNat ⌊g1.buffer_move⌋) rs g1
    if g2.state = GState.gameover then g2 else decay dt g2

/-- The keys handled by `SnakeGame.handle_input` that affect the embedded
simulation state (escape/quit and the F5 screenshot are process-level or
visual-only). -/
inductive Key where
  | space
  | t
  | m
  | g
  | f1
  | f2
  | plus
  | minus
  | p
  | r
  | left
  | right
  | up
  | down
deriving DecidableEq, Repr

/-- One `KEYDOWN` event of `SnakeGame.handle_input` (the R key calls `reset`,
whose initial `spawn_food` consumes the given `SpawnRand`). -/
def handleKey (k : Key) (rnd : SpawnRand) (g : Game) : Game :=
  match k with
  | Key.space => if g.state = GState.menu then { g with state := GState.play } else g
  | Key.t =>
      { g with prefs := { g.prefs with theme_index := (g.prefs.theme_index + 1) % 3 } }
  | Key.m => { g with prefs := { g.prefs with wrap_walls := !g.prefs.wrap_walls } }
  | Key.g => { g with prefs := { g.prefs with show_grid := !g.prefs.show_grid } }
  | Key.f1 => { g with flash_t := mkRat 3 2 }
  | Key.f2 => { g with photo_mode := !g.photo_mode }
  | Key.plus =>
      let b := min 25 (g.prefs.base_speed + mkRat 1 2)
      { g with prefs := { g.prefs with base_speed := b }, speed := b }
  | Key.minus =>
      let b := max 3 (g.prefs.base_speed - mkRat 1 2)
      { g with prefs := { g.prefs with base_speed := b }, speed := b }
  | Key.p =>
      if g.state = GState.play then { g with state := GState.paused }
      else if g.state = GState.paused then { g with state := GState.play }
      else g
  | Key.r => { reset rnd g with state := GState.play }
  | Key.left => if g.dir ≠ (1, 0) then { g with next_dir := (-1, 0) } else g
  | Key.right => if g.dir ≠ (-1, 0) then { g with next_dir := (1, 0) } else g
  | Key.up => if g.dir ≠ (0, 1) then { g with next_dir := (0, -1) } else g
  | Key.down => if g.dir ≠ (0, -1) then { g with next_dir := (0, 1) } else g

/-- An externally observable event of the main loop: a key press or a
simulation update with elapsed time `dt`. -/
inductive Event where
  | key (k : Key) (rnd : SpawnRand)
  | tick (dt : ℚ) (rs : List StepRand)

/-- Process one event. -/
def stepEvent (g : Game) (e : Event) : Game :=
  match e with
  | Event.key k rnd => handleKey k rnd g
  | Event.tick dt rs => update dt rs g

/-- Process a sequence of events. -/
def run (evs : List Event) (g : Game) : Game :=
  evs.foldl stepEvent g

/-- The state built by `SnakeGame.__init__` for given loaded preferences,
before `reset` runs: every simulation field subsequently set by `reset`. -/
def emptyGame (p : Prefs) : Game :=
  { state := GState.menu
    stats := {}
    snake := []
    dir := (1, 0)
    next_dir := (1, 0)
    buffer_move := 0
    speed := p.base_speed
    combo := 0
    foods := []
    flash_t := 0
    camera_shake_t := 0
    photo_mode := false
    prefs := p
    saveLog := [] }

/-- The state at the end of `SnakeGame.__init__`: `reset` applied to the fresh
object. -/
def initGame (p : Prefs) (rnd : SpawnRand) : Game :=
  reset rnd (emptyGame p)

/-
Preferences file loading (`load_prefs`).  The JSON values the `prefs` sub-dict
may carry are embedded as a tagged value type; the dataclass constructor
`Prefs(**{**Prefs().__dict__, **d.get('prefs', {})})` performs no type
validation of field values, so the record it builds can hold a value of any
JSON type in any field — the loaded record is therefore embedded
heterogeneously, with one JSON value per field. A keyword that is not a field
name raises `TypeError`, which the surrounding `except` turns into the
defaults.
-/

/-- A JSON value as far as the preferences record is concerned. -/
inductive JValue where
  | jint (n : Int)
  | jbool (b : Bool)
  | jnum (q : ℚ)
  | jstr (s : String)
  | jnull
deriving DecidableEq, Repr

/-- The record `load_prefs` actually returns: field values are whatever JSON
values the file supplied, defaults (`Prefs()`) otherwise. -/
structure RawPrefs where
  theme_index : JValue := JValue.jint 0
  show_grid : JValue := JValue.jbool true
  wrap_walls : JValue := JValue.jbool true
  base_speed : JValue := JValue.jnum 8
  best_score : JValue := JValue.jint 0
deriving DecidableEq, Repr

/-- Contents of the data file as seen by `load_prefs`: absent, a file on which
`open`/`json.load` raises, or a successfully parsed `prefs` sub-dict given as
a keyword/value list. -/
inductive PrefsFile where
  | missing
  | unreadable
  | record (d : List (String × JValue))
deriving DecidableEq, Repr

/-- Applying one keyword argument in `Prefs(**...)`: known field names assign
the field (unvalidated); any other keyword raises `TypeError` (`none`). -/
def setField (p : RawPrefs) : String × JValue → Option RawPrefs
  | ("theme_index", v) => some { p with theme_index := v }
  | ("show_grid", v) => some { p with show_grid := v }
  | ("wrap_walls", v) => some { p with wrap_walls := v }
  | ("base_speed", v) => some { p with base_speed := v }
  | ("best_score", v) => some { p with best_score := v }
  | _ => none

/-- `Prefs(**{**Prefs().__dict__, **d})`: defaults overridden by the supplied
keywords, failing on an unknown keyword. -/
def mkPrefs (d : List (String × JValue)) : Option RawPrefs :=
  d.foldlM setField {}

/-- `load_prefs`: defaults when the file is missing; defaults when reading,
parsing, or record construction raises (the `except Exception` branch);
otherwise the constructed record. -/
def load_prefs (file : PrefsFile) : RawPrefs :=
  match file with
  | PrefsFile.missing => {}
  | PrefsFile.unreadable => {}
  | PrefsFile.record d =>
      match mkPrefs d with
      | none => {}
      | some p => p

/-
Derived notions used by the statements below.
-/

/-- The exact reverse of a heading vector. -/
def dirNeg (v : Cell) : Cell := (-v.1, -v.2)

/-- The four unit headings movement keys can install. -/
def isUnitDir (v : Cell) : Prop :=
  v = (1, 0) ∨ v = (-1, 0) ∨ v = (0, 1) ∨ v = (0, -1)

/-- No two adjacent entries of the list are equal. -/
def adjFree : List Cell → Bool
  | a :: b :: t => a ≠ b && adjFree (b :: t)
  | _ => true

/-- The headings are in the state the input handler maintains: the pending
heading never reverses the current one and is never the zero vector. -/
def goodDirs (g : Game) : Prop :=
  g.next_dir ≠ dirNeg g.dir ∧ g.next_dir ≠ (0, 0)

/-
Preservation lemmas: which fields each operation leaves untouched.
-/

lemma spawn_food_fields (b : Bool) (r : SpawnRand) (g : Game) :
    (spawn_food b r g).state = g.state ∧ (spawn_food b r g).stats = g.stats ∧
    (spawn_food b r g).snake = g.snake ∧ (spawn_food b r g).dir = g.dir ∧
    (spawn_food b r g).next_dir = g.next_dir ∧
    (spawn_food b r g).buffer_move = g.buffer_move ∧
    (spawn_food b r g).speed = g.speed ∧ (spawn_food b r g).combo = g.combo ∧
    (spawn_food b r g).prefs = g.prefs ∧
    (spawn_food b r g).saveLog = g.saveLog := by
  unfold spawn_food place
  dsimp only
  repeat' split
  all_goals exact ⟨rfl, rfl, rfl, rfl, rfl, rfl, rfl, rfl, rfl, rfl⟩

lemma spawn_food_snake (b : Bool) (r : SpawnRand) (g : Game) :
    (spawn_food b r g).snake = g.snake :=
  (spawn_food_fields b r g).2.2.1

lemma spawn_food_dir (b : Bool) (r : SpawnRand) (g : Game) :
    (spawn_food b r g).dir = g.dir :=
  (spawn_food_fields b r g).2.2.2.1

lemma spawn_food_next_dir (b : Bool) (r : SpawnRand) (g : Game) :
    (spawn_food b r g).next_dir = g.next_dir :=
  (spawn_food_fields b r g).2.2.2.2.1

lemma spawn_food_stats (b : Bool) (r : SpawnRand) (g : Game) :
    (spawn_food b r g).stats = g.stats :=
  (spawn_food_fields b r g).2.1

lemma spawn_food_state (b : Bool) (r : SpawnRand) (g : Game) :
    (spawn_food b r g).state = g.state :=
  (spawn_food_fields b r g).1

lemma spawn_food_prefs (b : Bool) (r : SpawnRand) (g : Game) :
    (spawn_food b r g).prefs = g.prefs :=
  (spawn_food_fields b r g).2.2.2.2.2.2.2.2.1

lemma spawn_food_saveLog (b : Bool) (r : SpawnRand) (g : Game) :
    (spawn_food b r g).saveLog = g.saveLog :=
  (spawn_food_fields b r g).2.2.2.2.2.2.2.2.2

lemma apply_food_fields (pc : Nat) (f : Food) (g : Game) :
    (apply_food pc f g).state = g.state ∧ (apply_food pc f g).dir = g.dir ∧
    (apply_food pc f g).next_dir = g.next_dir ∧
    (apply_food pc f g).buffer_move = g.buffer_move ∧
    (apply_food pc f g).combo = g.combo ∧
    (apply_food pc f g).prefs = g.prefs ∧
    (apply_food pc f g).saveLog = g.saveLog := by
  unfold apply_food
  dsimp only
  repeat' split
  all_goals exact ⟨rfl, rfl, rfl, rfl, rfl, rfl, rfl⟩

lemma apply_food_dir (pc : Nat) (f : Food) (g : Game) :
    (apply_food pc f g).dir = g.dir :=
  (apply_food_fields pc f g).2.1

lemma apply_food_next_dir (pc : Nat) (f : Food) (g : Game) :
    (apply_food pc f g).next_dir = g.next_dir :=
  (apply_food_fields pc f g).2.2.1

lemma apply_food_state (pc : Nat) (f : Food) (g : Game) :
    (apply_food pc f g).state = g.state :=
  (apply_food_fields pc f g).1

lemma apply_food_prefs (pc : Nat) (f : Food) (g : Game) :
    (apply_food pc f g).prefs = g.prefs :=
  (apply_food_fields pc f g).2.2.2.2.2.1

lemma apply_food_saveLog (pc : Nat) (f : Food) (g : Game) :
    (apply_food pc f g).saveLog = g.saveLog :=
  (apply_food_fields pc f g).2.2.2.2.2.2

lemma afterEat_fields (r : StepRand) (f : Food) (nh : Cell) (g : Game) :
    (afterEat r f nh g).state = g.state ∧
    (afterEat r f nh g).snake =
      (apply_food r.portalChoice f { g with foods := removeEaten nh g.foods }).snake ∧
    (afterEat r f nh g).dir = g.dir ∧
    (afterEat r f nh g).next_dir = g.next_dir ∧
    (afterEat r f nh g).stats.score =
      (apply_food r.portalChoice f { g with foods := removeEaten nh g.foods }).stats.score ∧
    (afterEat r f nh g).prefs = g.prefs ∧
    (afterEat r f nh g).saveLog = g.saveLog := by
  unfold afterEat
  dsimp only
  rw [spawn_food_snake, spawn_food_dir, spawn_food_next_dir, spawn_food_state,
    spawn_food_prefs, spawn_food_saveLog, spawn_food_stats,
    apply_food_dir, apply_food_next_dir, apply_food_state, apply_food_prefs,
    apply_food_saveLog]
  exact ⟨rfl, rfl, rfl, rfl, rfl, rfl, rfl⟩

lemma game_over_fields (g : Game) :
    (game_over g).state = GState.gameover ∧
    (game_over g).prefs.best_score = max g.prefs.best_score g.stats.score ∧
    (game_over g).saveLog = (game_over g).prefs :: g.saveLog ∧
    (game_over g).snake = g.snake ∧ (game_over g).dir = g.dir ∧
    (game_over g).next_dir = g.next_dir ∧ (game_over g).stats = g.stats := by
  unfold game_over
  exact ⟨rfl, rfl, rfl, rfl, rfl, rfl, rfl⟩

lemma moveOnce_dirs (r : StepRand) (g : Game) :
    (moveOnce r g).dir = g.next_dir ∧ (moveOnce r g).next_dir = g.next_dir := by
  unfold moveOnce
  dsimp only
  by_cases hW : hitsWall g = true
  · rw [if_pos hW]
    exact ⟨(game_over_fields _).2.2.2.2.1, (game_over_fields _).2.2.2.2.2.1⟩
  · rw [if_neg hW]
    by_cases hC : selfCollides g = true
    · rw [if_pos hC]
      exact ⟨(game_over_fields _).2.2.2.2.1, (game_over_fields _).2.2.2.2.2.1⟩
    · rw [if_neg hC]
      cases hf : ateFood g with
      | some f =>
          have h := afterEat_fields r f (newHead g)
            { g with
              buffer_move := g.buffer_move - 1
              dir := g.next_dir
              snake := g.snake ++ [newHead g] }
          exact ⟨h.2.2.1, h.2.2.2.1⟩
      | none => exact ⟨rfl, rfl⟩

lemma decay_dirs (dt : ℚ) (g : Game) :
    (decay dt g).dir = g.dir ∧ (decay dt g).next_dir = g.next_dir :=
  ⟨rfl, rfl⟩

lemma dirNeg_eq_self (v : Cell) : v = dirNeg v ↔ v = (0, 0) := by
  unfold dirNeg
  constructor
  · intro h
    have h1 := congrArg Prod.fst h
    have h2 := congrArg Prod.snd h
    simp at h1 h2
    exact Prod.ext (by omega) (by omega)
  · intro h
    subst h
    rfl

lemma goodDirs_moveOnce (r : StepRand) (g : Game) (h : goodDirs g) :
    goodDirs (moveOnce r g) := by
  obtain ⟨_, h2⟩ := h
  obtain ⟨hd, hn⟩ := moveOnce_dirs r g
  refine ⟨?_, ?_⟩
  · rw [hd, hn]
    intro hc
    exact h2 ((dirNeg_eq_self g.next_dir).mp hc)
  · rw [hn]
    exact h2

lemma goodDirs_moveLoop (n : Nat) (rs : List StepRand) (g : Game)
    (h : goodDirs g) : goodDirs (moveLoop n rs g) := by
  induction n generalizing rs g with
  | zero => exact h
  | succ n ih =>
      unfold moveLoop
      dsimp only
      by_cases hb : 1 ≤ g.buffer_move
      · rw [if_pos hb]
        by_cases hgo : (moveOnce (rs.headD {}) g).state = GState.gameover
        · rw [if_pos hgo]
          exact goodDirs_moveOnce _ _ h
        · rw [if_neg hgo]
          exact ih _ _ (goodDirs_moveOnce _ _ h)
      · rw [if_neg hb]
        exact h

lemma goodDirs_update (dt : ℚ) (rs : List StepRand) (g : Game)
    (h : goodDirs g) : goodDirs (update dt rs g) := by
  unfold update
  dsimp only
  by_cases hs : g.state ≠ GState.play
  · rw [if_pos hs]
    exact h
  · rw [if_neg hs]
    have h' : goodDirs { g with buffer_move := g.buffer_move + dt * g.speed } :=
      ⟨h.1, h.2⟩
    by_cases hgo : (moveLoop
        (Int.toNat ⌊g.buffer_move + dt * g.speed⌋) rs
        { g with buffer_move := g.buffer_move + dt * g.speed }).state =
          GState.gameover
    · rw [if_pos hgo]
      exact goodDirs_moveLoop _ _ _ h'
    · rw [if_neg hgo]
      exact goodDirs_moveLoop _ _ _ h'

lemma goodDirs_reset (r : SpawnRand) (g : Game) : goodDirs (reset r g) := by
  unfold reset
  constructor
  · rw [spawn_food_next_dir, spawn_food_dir]
    intro h
    simp [dirNeg] at h
  · rw [spawn_food_next_dir]
    intro h
    simp at h

lemma goodDirs_handleKey (k : Key) (rnd : SpawnRand) (g : Game)
    (h : goodDirs g) : goodDirs (handleKey k rnd g) := by
  cases k <;> dsimp only [handleKey]
  case space =>
      by_cases hs : g.state = GState.menu
      · rw [if_pos hs]; exact ⟨h.1, h.2⟩
      · rw [if_neg hs]; exact h
  case t => exact ⟨h.1, h.2⟩
  case m => exact ⟨h.1, h.2⟩
  case g => exact ⟨h.1, h.2⟩
  case f1 => exact ⟨h.1, h.2⟩
  case f2 => exact ⟨h.1, h.2⟩
  case plus => exact ⟨h.1, h.2⟩
  case minus => exact ⟨h.1, h.2⟩
  case p =>
      by_cases hs : g.state = GState.play
      · rw [if_pos hs]; exact ⟨h.1, h.2⟩
      · rw [if_neg hs]
        by_cases hp : g.state = GState.paused
        · rw [if_pos hp]; exact ⟨h.1, h.2⟩
        · rw [if_neg hp]; exact h
  case r => exact ⟨(goodDirs_reset rnd g).1, (goodDirs_reset rnd g).2⟩
  case left =>
      by_cases hg : g.dir = (1, 0)
      · rw [if_neg (by simp [hg])]
        exact h
      · rw [if_pos hg]
        refine ⟨?_, ?_⟩
        case neg.refine_2 =>
          show ((-1 : Int), (0 : Int)) ≠ ((0 : Int), (0 : Int))
          decide
        show ((-1 : Int), (0 : Int)) ≠ dirNeg g.dir
        simp only [dirNeg, ne_eq, Prod.ext_iff] at hg ⊢
        omega
  case right =>
      by_cases hg : g.dir = (-1, 0)
      · rw [if_neg (by simp [hg])]
        exact h
      · rw [if_pos hg]
        refine ⟨?_, ?_⟩
        case neg.refine_2 =>
          show ((1 : Int), (0 : Int)) ≠ ((0 : Int), (0 : Int))
          decide
        show ((1 : Int), (0 : Int)) ≠ dirNeg g.dir
        simp only [dirNeg, ne_eq, Prod.ext_iff] at hg ⊢
        omega
  case up =>
      by_cases hg : g.dir = (0, 1)
      · rw [if_neg (by simp [hg])]
        exact h
      · rw [if_pos hg]
        refine ⟨?_, ?_⟩
        case neg.refine_2 =>
          show ((0 : Int), (-1 : Int)) ≠ ((0 : Int), (0 : Int))
          decide
        show ((0 : Int), (-1 : Int)) ≠ dirNeg g.dir
        simp only [dirNeg, ne_eq, Prod.ext_iff] at hg ⊢
        omega
  case down =>
      by_cases hg : g.dir = (0, -1)
      · rw [if_neg (by simp [hg])]
        exact h
      · rw [if_pos hg]
        refine ⟨?_, ?_⟩
        case neg.refine_2 =>
          show ((0 : Int), (1 : Int)) ≠ ((0 : Int), (0 : Int))
          decide
        show ((0 : Int), (1 : Int)) ≠ dirNeg g.dir
        simp only [dirNeg, ne_eq, Prod.ext_iff] at hg ⊢
        omega

lemma goodDirs_run (evs : List Event) (g : Game) (h : goodDirs g) :
    goodDirs (run evs g) := by
  induction evs generalizing g with
  | nil => exact h
  | cons e t ih =>
      cases e with
      | key k rnd => exact ih _ (goodDirs_handleKey k rnd g h)
      | tick dt rs => exact ih _ (goodDirs_update dt rs g h)

lemma goodDirs_initGame (p : Prefs) (rnd : SpawnRand) :
    goodDirs (initGame p rnd) :=
  goodDirs_reset rnd (emptyGame p)

/-
Branch equations for one movement-loop iteration.
-/

lemma moveOnce_wall (r : StepRand) (g : Game) (hW : hitsWall g = true) :
    moveOnce r g =
      game_over { g with buffer_move := g.buffer_move - 1, dir := g.next_dir } := by
  unfold moveOnce
  dsimp only
  rw [if_pos hW]

lemma moveOnce_collide (r : StepRand) (g : Game) (hW : hitsWall g = false)
    (hC : selfCollides g = true) :
    moveOnce r g =
      game_over { g with buffer_move := g.buffer_move - 1, dir := g.next_dir } := by
  unfold moveOnce
  dsimp only
  rw [if_neg (by simp [hW]), if_pos hC]

lemma moveOnce_eat (r : StepRand) (g : Game) (f : Food)
    (hW : hitsWall g = false) (hC : selfCollides g = false)
    (hf : ateFood g = some f) :
    moveOnce r g =
      afterEat r f (newHead g)
        { g with
          buffer_move := g.buffer_move - 1
          dir := g.next_dir
          snake := g.snake ++ [newHead g] } := by
  unfold moveOnce
  dsimp only
  rw [if_neg (by simp [hW]), if_neg (by simp [hC]), hf]

lemma moveOnce_noeat (r : StepRand) (g : Game)
    (hW : hitsWall g = false) (hC : selfCollides g = false)
    (hf : ateFood g = none) :
    moveOnce r g =
      { g with
        buffer_move := g.buffer_move - 1
        dir := g.next_dir
        snake := (g.snake ++ [newHead g]).drop 1
        combo := 0 } := by
  unfold moveOnce
  dsimp only
  rw [if_neg (by simp [hW]), if_neg (by simp [hC]), hf]

/-
Adjacent-duplicate-freedom helpers.
-/

lemma adjFree_of_cons (a : Cell) (t : List Cell)
    (h : adjFree (a :: t) = true) : adjFree t = true := by
  cases t with
  | nil => rfl
  | cons b t' =>
      simp only [adjFree, Bool.and_eq_true] at h
      exact h.2

lemma adjFree_append (l : List Cell) (c : Cell) (h : adjFree l = true)
    (hl : ∀ x, l.getLast? = some x → x ≠ c) : adjFree (l ++ [c]) = true := by
  induction l with
  | nil => rfl
  | cons a t ih =>
      cases t with
      | nil =>
          have hac : a ≠ c := hl a rfl
          simp [adjFree, hac]
      | cons b t' =>
          rw [List.cons_append]
          have step : adjFree (a :: ((b :: t') ++ [c])) =
              (decide (a ≠ b) && adjFree ((b :: t') ++ [c])) := by
            rw [List.cons_append]
            rfl
          rw [step, Bool.and_eq_true]
          simp only [adjFree, Bool.and_eq_true] at h
          refine ⟨by simpa using h.1, ih h.2 ?_⟩
          intro x hx
          exact hl x (by rw [List.getLast?_cons_cons]; exact hx)

lemma adjFree_drop_one (l : List Cell) (h : adjFree l = true) :
    adjFree (l.drop 1) = true := by
  cases l with
  | nil => rfl
  | cons a t => exact adjFree_of_cons a t h

lemma newHead_ne_last (g : Game) (h : isUnitDir g.next_dir) :
    newHead g ≠ g.snake.getLastD (0, 0) := by
  unfold newHead rawHead
  dsimp only
  by_cases hw : g.prefs.wrap_walls = true
  · rw [if_pos hw]
    intro heq
    have h1 := congrArg Prod.fst heq
    have h2 := congrArg Prod.snd heq
    dsimp at h1 h2
    rcases h with h | h | h | h <;> rw [h] at h1 h2 <;>
      simp only [GRID_W, GRID_H] at h1 h2 <;> dsimp at h1 h2 <;> omega
  · rw [if_neg hw]
    intro heq
    have h1 := congrArg Prod.fst heq
    have h2 := congrArg Prod.snd heq
    dsimp at h1 h2
    rcases h with h | h | h | h <;> rw [h] at h1 h2 <;> dsimp at h1 h2 <;> omega

/-
Effect-resolution branch equations.
-/

lemma apply_food_normal (pc : Nat) (f : Food) (g : Game)
    (h : f.kind = FOOD_NORMAL) :
    (apply_food pc f g).snake = g.snake ∧
    (apply_food pc f g).stats.score =
      g.stats.score + 10 + max 0 (g.combo - 1) * 4 := by
  unfold apply_food
  rw [if_pos h]
  exact ⟨rfl, rfl⟩

lemma apply_food_golden (pc : Nat) (f : Food) (g : Game)
    (h : f.kind = FOOD_GOLDEN) :
    (apply_food pc f g).snake =
      g.snake ++ [g.snake.headD (0, 0), g.snake.headD (0, 0)] ∧
    (apply_food pc f g).stats.score = g.stats.score + 50 := by
  unfold apply_food
  rw [if_neg (by simp [h, FOOD_GOLDEN, FOOD_NORMAL]), if_pos h]
  exact ⟨rfl, rfl⟩

lemma apply_food_shrink_snake (pc : Nat) (f : Food) (g : Game)
    (h : f.kind = FOOD_SHRINK) :
    (apply_food pc f g).snake =
      if 0 < min 3 ((g.snake.length : Int) - 3) then
        g.snake.drop (min 3 ((g.snake.length : Int) - 3)).toNat
      else g.snake := by
  unfold apply_food
  rw [if_neg (by simp [h, FOOD_SHRINK, FOOD_NORMAL]),
    if_neg (by simp [h, FOOD_SHRINK, FOOD_GOLDEN]),
    if_neg (by simp [h, FOOD_SHRINK, FOOD_SLOWMO]), if_pos h]
  dsimp only
  by_cases hc : 0 < min 3 ((g.snake.length : Int) - 3)
  · rw [if_pos hc, if_pos hc]
  · rw [if_neg hc, if_neg hc]

/-
Concrete states used by the witnesses and counterexamples.
-/

/-- A small mid-game state: length-3 snake in the middle of the grid, heading
right, default preferences, no food on the board. -/
def sampleGame : Game :=
  { state := GState.play
    stats := {}
    snake := [(13, 10), (14, 10), (15, 10)]
    dir := (1, 0)
    next_dir := (1, 0)
    buffer_move := 0
    speed := 8
    combo := 0
    foods := []
    flash_t := 0
    camera_shake_t := 0
    photo_mode := false
    prefs := {}
    saveLog := [] }

/-- `sampleGame` with a golden (bonus) food directly ahead of the head. -/
def goldenGame : Game :=
  { sampleGame with foods := [⟨(16, 10), FOOD_GOLDEN, 12⟩] }

/-- `sampleGame` with a length-6 snake. -/
def longGame : Game :=
  { sampleGame with
    snake := [(10, 10), (11, 10), (12, 10), (13, 10), (14, 10), (15, 10)] }

/-- Solid-wall state with the head on the right edge, score 42, best 100. -/
def edgeGame : Game :=
  { sampleGame with
    snake := [(25, 10), (26, 10), (27, 10)]
    prefs := { wrap_walls := false, best_score := 100 }
    stats := { score := 42 } }

/-- `sampleGame` sitting in the menu. -/
def menuGame : Game :=
  { sampleGame with state := GState.menu }

/-
The claims.
-/

/-- Claim C1: in a movement step that neither leaves the grid nor collides,
consuming normal food grows the snake's body by exactly one cell, and
consuming golden (bonus) food grows it by exactly three cells and adds the
configured bonus amount, 50, to the score. -/
theorem golden_and_normal_growth (r : StepRand) (g : Game) (f : Food)
    (hW : hitsWall g = false) (hC : selfCollides g = false)
    (hf : ateFood g = some f) :
    (f.kind = FOOD_NORMAL →
      (moveOnce r g).snake.length = g.snake.length + 1) ∧
    (f.kind = FOOD_GOLDEN →
      (moveOnce r g).snake.length = g.snake.length + 3 ∧
      (moveOnce r g).stats.score = g.stats.score + 50) := by
  rw [moveOnce_eat r g f hW hC hf]
  have hA := afterEat_fields r f (newHead g)
    { g with
      buffer_move := g.buffer_move - 1
      dir := g.next_dir
      snake := g.snake ++ [newHead g] }
  constructor
  · intro hk
    rw [hA.2.1, (apply_food_normal _ f _ hk).1]
    simp
  · intro hk
    refine ⟨?_, ?_⟩
    · rw [hA.2.1, (apply_food_golden _ f _ hk).1]
      simp
    · rw [hA.2.2.2.2.1, (apply_food_golden _ f _ hk).2]

/-- Witness for C1: a length-3 snake heading right onto golden food ends the
step with length 6 and 50 more points. -/
theorem golden_and_normal_growth_witness :
    (moveOnce {} goldenGame).snake.length = goldenGame.snake.length + 3 ∧
    (moveOnce {} goldenGame).stats.score = goldenGame.stats.score + 50 :=
  (golden_and_normal_growth {} goldenGame ⟨(16, 10), FOOD_GOLDEN, 12⟩
    (by decide) (by decide) (by decide)).2 rfl

/-- Claim C2: a movement step whose new head cell holds no food and causes no
game over (no wall hit, no self collision) keeps the body length unchanged:
the new head is appended and the tail cell removed. -/
theorem nonfood_move_keeps_length (r : StepRand) (g : Game)
    (hW : hitsWall g = false) (hC : selfCollides g = false)
    (hf : ateFood g = none) :
    (moveOnce r g).snake.length = g.snake.length := by
  rw [moveOnce_noeat r g hW hC hf]
  show ((g.snake ++ [newHead g]).drop 1).length = g.snake.length
  simp

/-- Witness for C2: a non-food move of the length-3 sample snake keeps
length 3. -/
theorem nonfood_move_keeps_length_witness :
    (moveOnce {} sampleGame).snake.length = sampleGame.snake.length :=
  nonfood_move_keeps_length {} sampleGame (by decide) (by decide) (by decide)

/-- Claim C3: along every sequence of key presses and update ticks from the
initial state, the heading committed by a movement step is never the exact
reverse of the heading in effect before that step (the one committed by the
previous movement step). -/
theorem committed_heading_never_reverses (p : Prefs) (rnd : SpawnRand)
    (evs : List Event) (r : StepRand) :
    (moveOnce r (run evs (initGame p rnd))).dir ≠
      dirNeg (run evs (initGame p rnd)).dir := by
  have hg := goodDirs_run evs _ (goodDirs_initGame p rnd)
  rw [(moveOnce_dirs r _).1]
  exact hg.1

/-- Claim C4: applying the shrink effect to a snake of length at least three
removes at most three tail cells and never leaves the body shorter than
three cells. -/
theorem shrink_at_most_three_min_three (pc : Nat) (f : Food) (g : Game)
    (hk : f.kind = FOOD_SHRINK) (hl : 3 ≤ g.snake.length) :
    g.snake.length ≤ (apply_food pc f g).snake.length + 3 ∧
    (apply_food pc f g).snake.length ≤ g.snake.length ∧
    3 ≤ (apply_food pc f g).snake.length := by
  rw [apply_food_shrink_snake pc f g hk]
  by_cases hc : 0 < min 3 ((g.snake.length : Int) - 3)
  · rw [if_pos hc]
    rw [List.length_drop]
    omega
  · rw [if_neg hc]
    omega

/-- Witness for C4: shrinking a length-6 snake removes exactly three cells,
down to the floor of three. -/
theorem shrink_at_most_three_min_three_witness :
    longGame.snake.length ≤
      (apply_food 0 ⟨(9, 9), FOOD_SHRINK, 10⟩ longGame).snake.length + 3 ∧
    (apply_food 0 ⟨(9, 9), FOOD_SHRINK, 10⟩ longGame).snake.length ≤
      longGame.snake.length ∧
    3 ≤ (apply_food 0 ⟨(9, 9), FOOD_SHRINK, 10⟩ longGame).snake.length :=
  shrink_at_most_three_min_three 0 ⟨(9, 9), FOOD_SHRINK, 10⟩ longGame rfl
    (by decide)

set_option maxRecDepth 8000 in
/-- Claim C5 (code bug): one spawn request can place its normal food and its
golden power-up on the same cell, because the free-cell list is computed once
and not updated between the placements of the same call: from `sampleGame`
(no food on the board), choice index 0 both times and roll 1/10 yield two
food items both at cell (0, 0). -/
theorem spawn_food_duplicate_cell :
    ((spawn_food false { i0 := 0, r := mkRat 1 10, i1 := 0, i2 := 0 }
        sampleGame).foods.map Food.pos) = [(0, 0), (0, 0)] := by
  decide

/-- Claim C6: in solid-wall mode, a step whose raw new head lies off the grid
triggers the game-over transition, and the stored best score becomes the
maximum of the old best and the current score — in particular it is unchanged
whenever the current score does not exceed it. -/
theorem solid_wall_game_over (r : StepRand) (g : Game)
    (hw : g.prefs.wrap_walls = false) (hb : inBounds (rawHead g) = false) :
    (moveOnce r g).state = GState.gameover ∧
    (moveOnce r g).prefs.best_score = max g.prefs.best_score g.stats.score ∧
    (g.stats.score ≤ g.prefs.best_score →
      (moveOnce r g).prefs.best_score = g.prefs.best_score) := by
  have hW : hitsWall g = true := by simp [hitsWall, hw, hb]
  rw [moveOnce_wall r g hW]
  have h := game_over_fields
    { g with buffer_move := g.buffer_move - 1, dir := g.next_dir }
  refine ⟨h.1, h.2.1, fun hle => ?_⟩
  have hmax := h.2.1
  rw [hmax]
  exact max_eq_left hle

/-- Witness for C6: the edge state (score 42, best 100, solid walls) moving
off the right edge ends the game and leaves the best score at 100. -/
theorem solid_wall_game_over_witness :
    (moveOnce {} edgeGame).state = GState.gameover ∧
    (moveOnce {} edgeGame).prefs.best_score =
      max edgeGame.prefs.best_score edgeGame.stats.score ∧
    (moveOnce {} edgeGame).prefs.best_score = edgeGame.prefs.best_score :=
  ⟨(solid_wall_game_over {} edgeGame rfl (by decide)).1,
   (solid_wall_game_over {} edgeGame rfl (by decide)).2.1,
   (solid_wall_game_over {} edgeGame rfl (by decide)).2.2 (by decide)⟩

/-- Counterexample to C7: after one update tick in which the snake eats the
golden food, the play-state snake ends in two identical adjacent cells (the
golden growth appends two copies of the tail cell at the head end of the
list). -/
theorem golden_food_breaks_adjacent_distinct :
    (moveOnce {} goldenGame).state = GState.play ∧
    adjFree (moveOnce {} goldenGame).snake = false := by
  constructor
  · decide
  · decide

/-- Claim C7 as amended: the snake produced by `reset` has no two identical
adjacent cells, and a movement step that consumes no food preserves that
property (consuming golden or portal food can destroy it). -/
theorem adjacent_distinct_init_and_nonfood :
    (∀ (p : Prefs) (rnd : SpawnRand), adjFree (initGame p rnd).snake = true) ∧
    (∀ (r : StepRand) (g : Game), isUnitDir g.next_dir →
      adjFree g.snake = true → ateFood g = none →
      adjFree (moveOnce r g).snake = true) := by
  constructor
  · intro p rnd
    unfold initGame reset
    rw [spawn_food_snake]
    show adjFree [(13, 10), (14, 10), (15, 10)] = true
    decide
  · intro r g hu ha hf
    by_cases hW : hitsWall g = true
    · rw [moveOnce_wall r g hW]
      rw [(game_over_fields _).2.2.2.1]
      exact ha
    · have hW' : hitsWall g = false := Bool.eq_false_iff.mpr hW
      by_cases hC : selfCollides g = true
      · rw [moveOnce_collide r g hW' hC]
        rw [(game_over_fields _).2.2.2.1]
        exact ha
      · have hC' : selfCollides g = false := Bool.eq_false_iff.mpr hC
        rw [moveOnce_noeat r g hW' hC' hf]
        show adjFree ((g.snake ++ [newHead g]).drop 1) = true
        apply adjFree_drop_one
        apply adjFree_append _ _ ha
        intro x hx
        have hd : g.snake.getLastD (0, 0) = x := by
          rw [List.getLastD_eq_getLast?, hx]
          rfl
        have hne := newHead_ne_last g hu
        rw [hd] at hne
        exact fun hxc => hne (hxc ▸ rfl)

/-- Witness for the amended C7: a non-food move of the sample snake keeps its
cells pairwise distinct along adjacencies. -/
theorem adjacent_distinct_init_and_nonfood_witness :
    adjFree (moveOnce {} sampleGame).snake = true :=
  adjacent_distinct_init_and_nonfood.2 {} sampleGame (Or.inl rfl) (by decide)
    (by decide)

/-- Claim C8: a missing data file, an unreadable or unparsable one, and a
parsed record whose keywords do not match the `Prefs` fields (so that the
dataclass constructor raises) all make `load_prefs` return the default
preferences, with no error escaping. -/
theorem load_prefs_fallback_defaults :
    load_prefs PrefsFile.missing = ({} : RawPrefs) ∧
    load_prefs PrefsFile.unreadable = ({} : RawPrefs) ∧
    ∀ d, mkPrefs d = none →
      load_prefs (PrefsFile.record d) = ({} : RawPrefs) := by
  refine ⟨rfl, rfl, ?_⟩
  intro d hd
  show (match mkPrefs d with
    | none => ({} : RawPrefs)
    | some p => p) = ({} : RawPrefs)
  rw [hd]

/-- Witness for C8: a record with the unknown keyword "volume" falls back to
the defaults. -/
theorem load_prefs_fallback_defaults_witness :
    load_prefs (PrefsFile.record [("volume", JValue.jint 3)]) =
      ({} : RawPrefs) :=
  load_prefs_fallback_defaults.2.2 [("volume", JValue.jint 3)] rfl

/-- Counterexample to C9: the theme-cycle key mutates the preferences record
outside any game-over transition and persists nothing. -/
theorem theme_key_mutates_prefs_without_save :
    (handleKey Key.t {} sampleGame).prefs ≠ sampleGame.prefs ∧
    (handleKey Key.t {} sampleGame).saveLog = sampleGame.saveLog := by
  constructor
  · decide
  · rfl

/-- Claim C9 as amended: the game-over transition updates the best score and
immediately persists the record; but the theme key (likewise the wall-mode,
grid and speed keys) also mutates the preferences, without persisting; a
movement step that does not end the game touches neither the record nor the
persistence log. -/
theorem prefs_mutation_sites :
    (∀ g : Game,
      (game_over g).prefs.best_score = max g.prefs.best_score g.stats.score ∧
      (game_over g).saveLog = (game_over g).prefs :: g.saveLog) ∧
    (∀ (g : Game) (rnd : SpawnRand),
      (handleKey Key.t rnd g).prefs.theme_index ≠ g.prefs.theme_index ∧
      (handleKey Key.t rnd g).saveLog = g.saveLog) ∧
    (∀ (r : StepRand) (g : Game), (moveOnce r g).state ≠ GState.gameover →
      (moveOnce r g).prefs = g.prefs ∧ (moveOnce r g).saveLog = g.saveLog) := by
  refine ⟨?_, ?_, ?_⟩
  · intro g
    exact ⟨(game_over_fields g).2.1, (game_over_fields g).2.2.1⟩
  · intro g rnd
    constructor
    · show (g.prefs.theme_index + 1) % 3 ≠ g.prefs.theme_index
      omega
    · rfl
  · intro r g hgo
    by_cases hW : hitsWall g = true
    · exact absurd ((moveOnce_wall r g hW) ▸ (game_over_fields _).1) hgo
    · have hW' : hitsWall g = false := Bool.eq_false_iff.mpr hW
      by_cases hC : selfCollides g = true
      · exact absurd ((moveOnce_collide r g hW' hC) ▸ (game_over_fields _).1) hgo
      · have hC' : selfCollides g = false := Bool.eq_false_iff.mpr hC
        cases hf : ateFood g with
        | some f =>
            rw [moveOnce_eat r g f hW' hC' hf]
            have hA := afterEat_fields r f (newHead g)
              { g with
                buffer_move := g.buffer_move - 1
                dir := g.next_dir
                snake := g.snake ++ [newHead g] }
            exact ⟨hA.2.2.2.2.2.1, hA.2.2.2.2.2.2⟩
        | none =>
            rw [moveOnce_noeat r g hW' hC' hf]
            exact ⟨rfl, rfl⟩

/-- Witness for the amended C9: a non-fatal movement step of the sample state
leaves the record and the log untouched. -/
theorem prefs_mutation_sites_witness :
    (moveOnce {} sampleGame).prefs = sampleGame.prefs ∧
    (moveOnce {} sampleGame).saveLog = sampleGame.saveLog :=
  prefs_mutation_sites.2.2 {} sampleGame (by decide)

/-- Claim C10: outside the play state, `update` is the identity on the whole
simulation state, for every elapsed time and every randomness. -/
theorem update_noop_outside_play (dt : ℚ) (rs : List StepRand) (g : Game)
    (h : g.state ≠ GState.play) : update dt rs g = g := by
  unfold update
  rw [if_pos h]

/-- Witness for C10: an update in the menu state changes nothing. -/
theorem update_noop_outside_play_witness : update 1 [] menuGame = menuGame :=
  update_noop_outside_play 1 [] menuGame (by decide)

end UltimateSnake
